import Mathlib

/-!
Shallow embedding of the VantaVault service worker
(`src/static/js/service-worker.js`) and of the gallery upload-selection
handler, with theorems settling the specification claims about request
routing, the per-strategy cache behaviour, install/activate lifecycle,
background sync, the periodic cache janitor and upload validation.

Modelling conventions:
* An HTTP response is a status, a body string, a header list, and the
  parsed value of its `date` header (milliseconds since epoch, `none`
  when the header is absent), standing for
  `new Date(response.headers.get('date')).getTime()`.
* `CacheStore` models the host `caches` object: named partitions in
  creation order, each an insertion-ordered list of URL-keyed entries.
* The network is an oracle `Network : String → Option Response`;
  `none` models a rejected `fetch`.
* One handler invocation is modelled as an atomic state transition:
  cache writes that the JS code schedules without awaiting are applied
  by the end of the invocation, and the flag `blockedOnNetwork` records
  whether the value returned to the caller awaited the network fetch.
-/

/-- Response snapshot: HTTP status, body, headers, and the parsed `date`
header in milliseconds since epoch (`none` when the header is absent). -/
structure Response where
  status : Nat
  body : String
  headers : List (String × String)
  date : Option Int
deriving Repr, DecidableEq

/-- `response.headers.get(nm)` for headers other than `date`. -/
def Response.getHeader (r : Response) (nm : String) : Option String :=
  (r.headers.find? (fun p => p.1 == nm)).map (fun p => p.2)

/-- One cache partition: URL-keyed response entries. -/
abbrev Partition := List (String × Response)

/-- The CacheStorage: named partitions in creation order. -/
abbrev CacheStore := List (String × Partition)

def CACHE_NAME : String := "vantavault-v2.0"

def STATIC_CACHE : String := "vantavault-static-v2.0"

def DYNAMIC_CACHE : String := "vantavault-dynamic-v2.0"

def MEDIA_CACHE : String := "vantavault-media-v2.0"

/-- Static assets cached on install. -/
def STATIC_ASSETS : List String :=
  ["/",
   "/static/css/main.css",
   "/static/css/animations.css",
   "/static/css/gallery.css",
   "/static/js/app.js",
   "/static/js/auth.js",
   "/static/js/gallery.js",
   "/manifest.json",
   "/offline",
   "/static/icons/icon-192.svg",
   "/static/icons/icon-512.svg"]

/-- Look a partition up by cache name (first match, as `caches.open` reuses
an existing cache of that name). -/
def cacheLookup : CacheStore → String → Option Partition
  | [], _ => none
  | (n, p) :: rest, nm => if n == nm then some p else cacheLookup rest nm

/-- `cache.put` inside one partition: overwrite any entry for the key. -/
def partitionPut (p : Partition) (k : String) (r : Response) : Partition :=
  p.filter (fun e => e.1 != k) ++ [(k, r)]

/-- `cache.match` inside one partition. -/
def partitionMatch (p : Partition) (k : String) : Option Response :=
  (p.find? (fun e => e.1 == k)).map (fun e => e.2)

/-- `caches.open(nm)` followed by `cache.put(k, r)`: the partition is created
if absent, and the entry for `k` is overwritten. -/
def cachePut : CacheStore → String → String → Response → CacheStore
  | [], nm, k, r => [(nm, partitionPut [] k r)]
  | (n, p) :: rest, nm, k, r =>
    if n == nm then (n, partitionPut p k r) :: rest
    else (n, p) :: cachePut rest nm k r

/-- `cache.match` after `caches.open(nm)`. -/
def cacheMatchIn (s : CacheStore) (nm k : String) : Option Response :=
  (cacheLookup s nm).bind (fun p => partitionMatch p k)

/-- Global `caches.match`: search the partitions in order. -/
def cachesMatch : CacheStore → String → Option Response
  | [], _ => none
  | (_, p) :: rest, k =>
    match partitionMatch p k with
    | some r => some r
    | none => cachesMatch rest k

/-- `caches.keys()`. -/
def cachesKeys (s : CacheStore) : List String := s.map (fun p => p.1)

/-- `caches.delete(nm)`. -/
def cachesDelete (s : CacheStore) (nm : String) : CacheStore :=
  s.filter (fun p => p.1 != nm)

/-- `caches.open(nm)` alone: ensure the partition exists. -/
def cacheOpen (s : CacheStore) (nm : String) : CacheStore :=
  if (cacheLookup s nm).isSome then s else s ++ [(nm, [])]

/-- An intercepted request: `url` is `event.request.url`, `path` is
`new URL(event.request.url).pathname`. -/
structure Request where
  method : String
  url : String
  path : String
  mode : String
  destination : String
deriving Repr, DecidableEq

/-- Network oracle: `fetch` keyed by request URL; `none` is a rejection. -/
abbrev Network := String → Option Response

/-- The strategy the fetch listener dispatches to. `skip` models the early
return for non-GET and chrome-extension requests. -/
inductive Strategy where
  | skip
  | api
  | media
  | page
  | staticAsset
deriving Repr, DecidableEq

/-- JS `s.startsWith(pre)`, in executable form: a character-list prefix
test on the strings' underlying data. -/
def strStartsWith (s pre : String) : Bool :=
  pre.data.isPrefixOf s.data

/-- The dispatch logic of the `fetch` event listener, with the branch order
exactly as in the source: the `/api/` test precedes the `/api/media/` test. -/
def routeRequest (req : Request) : Strategy :=
  if req.method != "GET" || strStartsWith req.url "chrome-extension://" then
    Strategy.skip
  else if strStartsWith req.path "/api/" then Strategy.api
  else if strStartsWith req.path "/api/media/" then Strategy.media
  else if req.mode == "navigate" then Strategy.page
  else Strategy.staticAsset

/-- Outcome of one handler invocation: the response given to
`event.respondWith` (`none` models resolving with `undefined`), the cache
state once the invocation's writes have landed, whether `fetch` was invoked,
and whether the returned response awaited that fetch. -/
structure HandlerResult where
  response : Option Response
  cache : CacheStore
  networkFetched : Bool
  blockedOnNetwork : Bool
deriving Repr, DecidableEq

/-- Body of the synthesized offline API response:
`JSON.stringify(\x7b error, offline: true, timestamp \x7d)`. -/
def apiOfflineBody (ts : String) : String :=
  "\x7b\"error\":\"You are offline\",\"offline\":true,\"timestamp\":\"" ++ ts ++ "\"\x7d"

/-- The synthesized 503 response of `handleApiRequest`'s catch branch. -/
def apiOfflineResponse (ts : String) : Response :=
  { status := 503
    body := apiOfflineBody ts
    headers := [("Content-Type", "application/json"), ("Cache-Control", "no-store")]
    date := none }

/-- `handleApiRequest`: network only; `ts` is `new Date().toISOString()`. -/
def handleApiRequest (net : Network) (ts : String) (req : Request)
    (c : CacheStore) : HandlerResult :=
  match net req.url with
  | some r => ⟨some r, c, true, true⟩
  | none => ⟨some (apiOfflineResponse ts), c, true, true⟩

/-- The 503 response of `handleMediaRequest`'s non-image fallback. -/
def mediaUnavailableResponse : Response :=
  { status := 503
    body := "Media unavailable offline"
    headers := [("Content-Type", "text/plain")]
    date := none }

/-- `handleMediaRequest`: cache first; on miss fetch, caching status-200
responses into the media partition; on failure a placeholder icon for image
destinations, otherwise a 503 text response. -/
def handleMediaRequest (net : Network) (req : Request) (c : CacheStore) :
    HandlerResult :=
  match cachesMatch c req.url with
  | some cached => ⟨some cached, c, false, false⟩
  | none =>
    match net req.url with
    | some r =>
      ⟨some r, if r.status == 200 then cachePut c MEDIA_CACHE req.url r else c,
       true, true⟩
    | none =>
      if req.destination == "image" then
        ⟨cachesMatch c "/static/icons/icon-192.svg", c, true, true⟩
      else ⟨some mediaUnavailableResponse, c, true, true⟩

/-- `handlePageRequest`: network first, caching every resolved response
(no status test in the source) into the dynamic partition; on failure the
cached copy for the same key, else the cached `/offline` page. -/
def handlePageRequest (net : Network) (req : Request) (c : CacheStore) :
    HandlerResult :=
  match net req.url with
  | some r => ⟨some r, cachePut c DYNAMIC_CACHE req.url r, true, true⟩
  | none =>
    match cachesMatch c req.url with
    | some cached => ⟨some cached, c, true, true⟩
    | none => ⟨cachesMatch c "/offline", c, true, true⟩

/-- `fetchAndCache`: fetch, and cache a clone into the dynamic partition
only for status-200 responses. `none` in the first component propagates a
rejected fetch. -/
def fetchAndCache (net : Network) (url : String) (c : CacheStore) :
    Option Response × CacheStore :=
  match net url with
  | none => (none, c)
  | some r =>
    if r.status != 200 then (some r, c)
    else (some r, cachePut c DYNAMIC_CACHE url r)

/-- The 503 response of `handleStaticRequest`'s offline fallback. -/
def offlineFallbackResponse : Response :=
  { status := 503
    body := "Offline"
    headers := [("Content-Type", "text/plain")]
    date := none }

/-- `handleStaticRequest`: on a cache hit, return the cached response at
once while `fetchAndCache` refreshes in the background (its outcome is not
awaited); on a miss, await `fetchAndCache`, falling back to a 503 response
when the fetch rejects. -/
def handleStaticRequest (net : Network) (req : Request) (c : CacheStore) :
    HandlerResult :=
  match cachesMatch c req.url with
  | some cached => ⟨some cached, (fetchAndCache net req.url c).2, true, false⟩
  | none =>
    match fetchAndCache net req.url c with
    | (none, c') => ⟨some offlineFallbackResponse, c', true, true⟩
    | (some r, c') => ⟨some r, c', true, true⟩

/-- The whole fetch listener: route, then run the dispatched handler.
`none` models the early return (the request passes through untouched). -/
def handleFetch (net : Network) (ts : String) (req : Request)
    (c : CacheStore) : Option HandlerResult :=
  match routeRequest req with
  | Strategy.skip => none
  | Strategy.api => some (handleApiRequest net ts req c)
  | Strategy.media => some (handleMediaRequest net req c)
  | Strategy.page => some (handlePageRequest net req c)
  | Strategy.staticAsset => some (handleStaticRequest net req c)

/-- Outcome of the first install listener: the cache state, whether the
catch branch logged a failure, whether `self.skipWaiting()` ran, and whether
the promise handed to `event.waitUntil` rejected (which is what would make
the install attempt fail). -/
structure InstallResult where
  cache : CacheStore
  logged : Bool
  skipWaitingCalled : Bool
  waitUntilRejected : Bool
deriving Repr, DecidableEq

/-- `cache.addAll(keys)`: atomic — if every fetch resolves, all entries are
written; if any fetch rejects, the whole call rejects and nothing is
written. -/
def cacheAddAll (net : Network) (s : CacheStore) (nm : String)
    (keys : List String) : Option CacheStore :=
  if keys.all (fun k => (net k).isSome) then
    some (keys.foldl (fun acc k =>
      match net k with
      | some r => cachePut acc nm k r
      | none => acc) s)
  else none

/-- The first `install` listener: open the static partition, `addAll` the
asset manifest, then `skipWaiting`; any error is caught and logged, so the
promise given to `event.waitUntil` always resolves. -/
def installStaticAssets (net : Network) (c : CacheStore) : InstallResult :=
  let c0 := cacheOpen c STATIC_CACHE
  match cacheAddAll net c0 STATIC_CACHE STATIC_ASSETS with
  | some c1 => ⟨c1, false, true, false⟩
  | none => ⟨c0, true, false, false⟩

/-- `currentCaches` of the activate listener. -/
def currentCaches : List String :=
  [CACHE_NAME, STATIC_CACHE, DYNAMIC_CACHE, MEDIA_CACHE]

/-- The `activate` listener: list cache names, keep those in
`currentCaches`, delete each of the others. -/
def activateListener (c : CacheStore) : CacheStore :=
  ((cachesKeys c).filter (fun nm => !currentCaches.contains nm)).foldl
    cachesDelete c

/-- Retention test of one `cleanupCache` loop iteration: an entry is kept
unless its `date` header is present and strictly older than the cutoff. -/
def keepEntry (cutoff : Int) (e : String × Response) : Bool :=
  match e.2.date with
  | none => true
  | some d => if d < cutoff then false else true

/-- Open the named partition and delete every entry rejected by `keep`. -/
def filterPartitionEntries : CacheStore → String →
    ((String × Response) → Bool) → CacheStore
  | [], nm, _ => [(nm, [])]
  | (n, p) :: rest, nm, keep =>
    if n == nm then (n, p.filter keep) :: rest
    else (n, p) :: filterPartitionEntries rest nm keep

/-- `cleanupCache` (periodic janitor): delete dynamic-partition entries
dated more than 7 days before `now`, then media-partition entries dated
more than 30 days before `now`; entries without a `date` header are kept. -/
def cleanupCache (now : Int) (c : CacheStore) : CacheStore :=
  let c1 := filterPartitionEntries c DYNAMIC_CACHE
    (keepEntry (now - 7 * 24 * 60 * 60 * 1000))
  filterPartitionEntries c1 MEDIA_CACHE
    (keepEntry (now - 30 * 24 * 60 * 60 * 1000))

/-- Entries of the named partition (empty when the partition is absent). -/
def partitionEntries (s : CacheStore) (nm : String) : Partition :=
  (cacheLookup s nm).getD []

/-- A pending upload as consumed by the sync loop (only its `id` is read by
the loop itself; the payload is behind the `retryUpload` oracle). -/
structure Upload where
  id : String
deriving Repr, DecidableEq

/-- A pending setting change as consumed by the settings sync loop. -/
structure SettingChange where
  id : String
  key : String
deriving Repr, DecidableEq

/-- A message posted to every foreground client, as built by
`sendMessageToClient`: a `type` tag, the item id, and the error text when
present. -/
structure ClientMessage where
  type : String
  id : String
  error : Option String
deriving Repr, DecidableEq

/-- `syncPendingUploads`: for each queued upload, attempt `retryUpload`
(the oracle; `Except.error` carries `error.message`); on success remove it
from the durable queue and post `UPLOAD_SYNC_SUCCESS`, on failure keep it
queued, post `UPLOAD_SYNC_FAILED`, and continue with the next item.
Returns the remaining queue and the messages posted, in order. -/
def syncPendingUploads (attempt : Upload → Except String Unit) :
    List Upload → List Upload × List ClientMessage
  | [] => ([], [])
  | u :: rest =>
    match attempt u with
    | Except.ok _ =>
      let t := syncPendingUploads attempt rest
      (t.1, ⟨"UPLOAD_SYNC_SUCCESS", u.id, none⟩ :: t.2)
    | Except.error e =>
      let t := syncPendingUploads attempt rest
      (u :: t.1, ⟨"UPLOAD_SYNC_FAILED", u.id, some e⟩ :: t.2)

/-- `syncSettings`: for each queued change, attempt `syncSettingChange`;
on success remove it from the queue, on failure keep it and continue. Both
outcomes are only logged — no client message is posted by this loop. -/
def syncSettings (attempt : SettingChange → Except String Unit) :
    List SettingChange → List SettingChange × List ClientMessage
  | [] => ([], [])
  | ch :: rest =>
    match attempt ch with
    | Except.ok _ => syncSettings attempt rest
    | Except.error _ =>
      let t := syncSettings attempt rest
      (ch :: t.1, t.2)

/-- A file as seen by the gallery's selection handler. -/
structure VFile where
  name : String
  type : String
  size : Nat
deriving Repr, DecidableEq

/-- An upload-queue item as pushed by `handleFileSelection`. -/
structure QueueItem where
  file : VFile
  progress : Nat
  status : String
deriving Repr, DecidableEq

/-- `file.type.startsWith('image/') || file.type.startsWith('video/')`. -/
def isValidType (f : VFile) : Bool :=
  strStartsWith f.type "image/" || strStartsWith f.type "video/"

/-- `file.size <= 500 * 1024 * 1024`. -/
def isValidSize (f : VFile) : Bool :=
  decide (f.size ≤ 500 * 1024 * 1024)

/-- The conjunction of both validity tests, as returned by the filter
callback. -/
def isValidFile (f : VFile) : Bool := isValidType f && isValidSize f

/-- The `files.filter` pass of `handleFileSelection`: collect the valid
files in order, and the error notifications shown for each invalid one
(type error first, then size error, per file, in file order). -/
def selectValid : List VFile → List VFile × List String
  | [] => ([], [])
  | f :: rest =>
    let isType := isValidType f
    let isSize := isValidSize f
    let errs :=
      (if isType then [] else [f.name ++ ": Invalid file type"]) ++
      (if isSize then [] else [f.name ++ ": File too large (max 500MB)"])
    let t := selectValid rest
    (if isType && isSize then f :: t.1 else t.1, errs ++ t.2)

/-- `GalleryManager.handleFileSelection`: filter the files, append each
valid one to the upload queue with progress 0 and status `pending`, and
return the queue together with the error notifications shown. -/
def handleFileSelection (queue : List QueueItem) (files : List VFile) :
    List QueueItem × List String :=
  let t := selectValid files
  (queue ++ t.1.map (fun f => ⟨f, 0, "pending"⟩), t.2)

/-- The inline offline page template (`OFFLINE_HTML`), verbatim. -/
def OFFLINE_HTML : String :=
  "\n<!DOCTYPE html>\n<html lang=\"en\" data-theme=\"dark\">\n<head>\n    <meta charset=\"UTF-8\">\n   " ++
  " <meta name=\"viewport\" content=\"width=device-width, initial-scale=1.0\">\n    <title>VantaVault -" ++
  " Offline</title>\n    <style>\n        * \x7b\n            margin: 0;\n            padding: 0;\n    " ++
  "        box-sizing: border-box;\n        \x7d\n        \n        body \x7b\n            font-family:" ++
  " -apple-system, BlinkMacSystemFont, \x27Segoe UI\x27, Roboto, sans-serif;\n            background: #" ++
  "000;\n            color: #fff;\n            height: 100vh;\n            display: flex;\n            " ++
  "justify-content: center;\n            align-items: center;\n            text-align: center;\n       " ++
  "     padding: 20px;\n        \x7d\n        \n        .container \x7b\n            max-width: 400px;\n" ++
  "        \x7d\n        \n        .icon \x7b\n            font-size: 4rem;\n            margin-bottom:" ++
  " 1.5rem;\n            animation: pulse 2s infinite;\n        \x7d\n        \n        h1 \x7b\n      " ++
  "      font-size: 2.5rem;\n            margin-bottom: 1rem;\n            background: linear-gradient(" ++
  "135deg, #fff, #aaa);\n            -webkit-background-clip: text;\n            -webkit-text-fill-colo" ++
  "r: transparent;\n        \x7d\n        \n        p \x7b\n            color: #aaa;\n            margi" ++
  "n-bottom: 2rem;\n            line-height: 1.6;\n        \x7d\n        \n        .actions \x7b\n     " ++
  "       display: flex;\n            gap: 1rem;\n            justify-content: center;\n        \x7d\n " ++
  "       \n        button \x7b\n            background: rgba(255, 255, 255, 0.1);\n            border:" ++
  " 1px solid rgba(255, 255, 255, 0.2);\n            color: white;\n            padding: 0.75rem 1.5rem" ++
  ";\n            border-radius: 12px;\n            cursor: pointer;\n            transition: all 0.3s " ++
  "ease;\n            font-size: 1rem;\n        \x7d\n        \n        button:hover \x7b\n            " ++
  "background: rgba(255, 255, 255, 0.2);\n            transform: translateY(-2px);\n        \x7d\n     " ++
  "   \n        button:active \x7b\n            transform: translateY(0);\n        \x7d\n        \n    " ++
  "    @keyframes pulse \x7b\n            0%, 100% \x7b opacity: 1; \x7d\n            50% \x7b opacity:" ++
  " 0.5; \x7d\n        \x7d\n        \n        @media (max-width: 480px) \x7b\n            h1 \x7b font" ++
  "-size: 2rem; \x7d\n            .icon \x7b font-size: 3rem; \x7d\n        \x7d\n    </style>\n</head>" ++
  "\n<body>\n    <div class=\"container\">\n        <div class=\"icon\">⚠️</div>\n        <h1>Offline</" ++
  "h1>\n        <p>You are currently offline. Please reconnect to access your secure vault.</p>\n      " ++
  "  <div class=\"actions\">\n            <button onclick=\"window.location.reload()\">Retry</button>\n" ++
  "            <button onclick=\"window.location.href=\x27/\x27\">Go Home</button>\n        </div>\n   " ++
  " </div>\n</body>\n</html>\n"

/-- The response the second `install` listener stores under `/offline`. -/
def offlinePageResponse : Response :=
  { status := 200
    body := OFFLINE_HTML
    headers := [("Content-Type", "text/html"), ("Cache-Control", "no-cache")]
    date := none }

/-- The second `install` listener: put the offline page into the static
partition under the fixed path `/offline`. -/
def installOfflinePage (c : CacheStore) : CacheStore :=
  cachePut c STATIC_CACHE "/offline" offlinePageResponse

/-! ### Cache-store lemmas -/

theorem find?_filter_ne (p : Partition) (k : String) :
    (p.filter (fun e => e.1 != k)).find? (fun e => e.1 == k) = none := by
  rw [List.find?_eq_none]
  intro e he
  have h2 := (List.mem_filter.mp he).2
  simp only [bne_iff_ne, ne_eq] at h2
  simp [h2]

theorem partitionMatch_put_self (p : Partition) (k : String) (r : Response) :
    partitionMatch (partitionPut p k r) k = some r := by
  simp [partitionMatch, partitionPut, List.find?_append, find?_filter_ne]

theorem cacheLookup_cachePut_self (s : CacheStore) (nm k : String)
    (r : Response) :
    cacheLookup (cachePut s nm k r) nm =
      some (partitionPut ((cacheLookup s nm).getD []) k r) := by
  induction s with
  | nil => simp [cachePut, cacheLookup]
  | cons hd tl ih =>
    obtain ⟨n, p⟩ := hd
    cases hn : n == nm with
    | true => simp [cachePut, hn, cacheLookup]
    | false => simp [cachePut, hn, cacheLookup, ih]

theorem cacheMatchIn_cachePut_self (s : CacheStore) (nm k : String)
    (r : Response) :
    cacheMatchIn (cachePut s nm k r) nm k = some r := by
  simp [cacheMatchIn, cacheLookup_cachePut_self, partitionMatch_put_self]

theorem cachesMatch_cachePut_self (s : CacheStore) (nm k : String)
    (r : Response) (h : cachesMatch s k = none) :
    cachesMatch (cachePut s nm k r) k = some r := by
  induction s with
  | nil => simp [cachePut, cachesMatch, partitionMatch_put_self]
  | cons hd tl ih =>
    obtain ⟨n, p⟩ := hd
    have hm : partitionMatch p k = none := by
      cases hpk : partitionMatch p k with
      | none => rfl
      | some v => simp [cachesMatch, hpk] at h
    have htl : cachesMatch tl k = none := by
      simpa [cachesMatch, hm] using h
    cases hn : n == nm with
    | true => simp [cachePut, hn, cachesMatch, partitionMatch_put_self]
    | false => simp [cachePut, hn, cachesMatch, hm, ih htl]

theorem cacheLookup_cachesDelete_self (s : CacheStore) (m : String) :
    cacheLookup (cachesDelete s m) m = none := by
  induction s with
  | nil => simp [cachesDelete, cacheLookup]
  | cons hd tl ih =>
    obtain ⟨n, p⟩ := hd
    by_cases h : n = m
    · simpa [cachesDelete, List.filter_cons, h] using ih
    · have hb : (n == m) = false := beq_eq_false_iff_ne.mpr h
      simpa [cachesDelete, List.filter_cons, h, cacheLookup, hb] using ih

theorem cacheLookup_cachesDelete_other (s : CacheStore) (m nm : String)
    (h : nm ≠ m) :
    cacheLookup (cachesDelete s m) nm = cacheLookup s nm := by
  induction s with
  | nil => simp [cachesDelete]
  | cons hd tl ih =>
    obtain ⟨n, p⟩ := hd
    by_cases hm : n = m
    · subst hm
      have hb : (n == nm) = false := beq_eq_false_iff_ne.mpr
        (fun e => h e.symm)
      simpa [cachesDelete, List.filter_cons, cacheLookup, hb] using ih
    · by_cases hnn : n = nm
      · subst hnn
        simp [cachesDelete, List.filter_cons, hm, cacheLookup]
      · have hb : (n == nm) = false := beq_eq_false_iff_ne.mpr hnn
        simpa [cachesDelete, List.filter_cons, hm, cacheLookup, hb] using ih

theorem cacheLookup_foldl_delete (L : List String) (s : CacheStore)
    (nm : String) :
    cacheLookup (L.foldl cachesDelete s) nm =
      if nm ∈ L then none else cacheLookup s nm := by
  induction L generalizing s with
  | nil => simp
  | cons m L ih =>
    simp only [List.foldl_cons, ih, List.mem_cons]
    by_cases h1 : nm ∈ L
    · simp [h1]
    · by_cases h2 : nm = m
      · subst h2; simp [h1, cacheLookup_cachesDelete_self]
      · simp [h1, h2, cacheLookup_cachesDelete_other s m nm h2]

theorem cacheLookup_eq_none_of_not_mem (s : CacheStore) (nm : String)
    (h : nm ∉ cachesKeys s) : cacheLookup s nm = none := by
  induction s with
  | nil => rfl
  | cons hd tl ih =>
    obtain ⟨n, p⟩ := hd
    simp [cachesKeys] at h
    have hb : (n == nm) = false := by
      simp [beq_iff_eq]
      exact fun e => h.1 e.symm
    have htl : nm ∉ cachesKeys tl := by simpa [cachesKeys] using h.2
    simp [cacheLookup, hb, ih htl]

theorem cacheLookup_filterPartitionEntries_self (s : CacheStore)
    (nm : String) (keep : (String × Response) → Bool) :
    cacheLookup (filterPartitionEntries s nm keep) nm =
      some ((partitionEntries s nm).filter keep) := by
  induction s with
  | nil => simp [filterPartitionEntries, cacheLookup, partitionEntries]
  | cons hd tl ih =>
    obtain ⟨n, p⟩ := hd
    cases hn : n == nm with
    | true =>
      simp [filterPartitionEntries, hn, cacheLookup, partitionEntries]
    | false =>
      simpa [filterPartitionEntries, hn, cacheLookup, partitionEntries]
        using ih

theorem cacheLookup_filterPartitionEntries_other (s : CacheStore)
    (nm nm' : String) (keep : (String × Response) → Bool) (h : nm' ≠ nm) :
    cacheLookup (filterPartitionEntries s nm keep) nm' = cacheLookup s nm' := by
  induction s with
  | nil =>
    have hb : (nm == nm') = false := by
      simp [beq_iff_eq]
      exact fun e => h e.symm
    simp [filterPartitionEntries, cacheLookup, hb]
  | cons hd tl ih =>
    obtain ⟨n, p⟩ := hd
    cases hn : n == nm with
    | true =>
      have : n = nm := by simpa using hn
      subst this
      have hb : (n == nm') = false := by
        simp [beq_iff_eq]
        exact fun e => h e.symm
      simp [filterPartitionEntries, hn, cacheLookup, hb]
    | false =>
      cases hnn : n == nm' with
      | true => simp [filterPartitionEntries, hn, cacheLookup, hnn]
      | false => simpa [filterPartitionEntries, hn, cacheLookup, hnn] using ih

/-! ### Sync-loop and file-selection lemmas -/

theorem syncPendingUploads_queue (attempt : Upload → Except String Unit)
    (q : List Upload) :
    (syncPendingUploads attempt q).1 =
      q.filter (fun u => match attempt u with
        | Except.ok _ => false
        | Except.error _ => true) := by
  induction q with
  | nil => rfl
  | cons u rest ih =>
    cases h : attempt u with
    | ok v => simp [syncPendingUploads, h, List.filter_cons, ih]
    | error e => simp [syncPendingUploads, h, List.filter_cons, ih]

theorem syncPendingUploads_messages (attempt : Upload → Except String Unit)
    (q : List Upload) :
    (syncPendingUploads attempt q).2 =
      q.map (fun u => match attempt u with
        | Except.ok _ => ⟨"UPLOAD_SYNC_SUCCESS", u.id, none⟩
        | Except.error e => ⟨"UPLOAD_SYNC_FAILED", u.id, some e⟩) := by
  induction q with
  | nil => rfl
  | cons u rest ih =>
    cases h : attempt u with
    | ok v => simp [syncPendingUploads, h, ih]
    | error e => simp [syncPendingUploads, h, ih]

theorem syncSettings_queue (attempt : SettingChange → Except String Unit)
    (q : List SettingChange) :
    (syncSettings attempt q).1 =
      q.filter (fun ch => match attempt ch with
        | Except.ok _ => false
        | Except.error _ => true) := by
  induction q with
  | nil => rfl
  | cons ch rest ih =>
    cases h : attempt ch with
    | ok v => simp [syncSettings, h, List.filter_cons, ih]
    | error e => simp [syncSettings, h, List.filter_cons, ih]

theorem syncSettings_messages (attempt : SettingChange → Except String Unit)
    (q : List SettingChange) :
    (syncSettings attempt q).2 = [] := by
  induction q with
  | nil => rfl
  | cons ch rest ih =>
    cases h : attempt ch with
    | ok v => simp [syncSettings, h, ih]
    | error e => simp [syncSettings, h, ih]

theorem selectValid_fst (files : List VFile) :
    (selectValid files).1 = files.filter isValidFile := by
  induction files with
  | nil => rfl
  | cons f rest ih =>
    cases h : isValidType f && isValidSize f <;>
      simp [selectValid, List.filter_cons, isValidFile, h, ih]

theorem selectValid_errors (files : List VFile) (f : VFile)
    (hmem : f ∈ files) (hinv : isValidFile f = false) :
    (f.name ++ ": Invalid file type") ∈ (selectValid files).2 ∨
    (f.name ++ ": File too large (max 500MB)") ∈ (selectValid files).2 := by
  induction files with
  | nil => cases hmem
  | cons g rest ih =>
    have hsnd : (selectValid (g :: rest)).2 =
        ((if isValidType g then [] else [g.name ++ ": Invalid file type"]) ++
         (if isValidSize g then []
          else [g.name ++ ": File too large (max 500MB)"])) ++
          (selectValid rest).2 := rfl
    rcases List.mem_cons.mp hmem with heq | hmem'
    · subst heq
      cases ht : isValidType f with
      | false =>
        left
        rw [hsnd, ht]
        simp
      | true =>
        cases hs : isValidSize f with
        | false =>
          right
          rw [hsnd, ht, hs]
          simp
        | true => simp [isValidFile, ht, hs] at hinv
    · rcases ih hmem' with h1 | h1
      · left
        rw [hsnd]
        exact List.mem_append.mpr (Or.inr h1)
      · right
        rw [hsnd]
        exact List.mem_append.mpr (Or.inr h1)

/-! ### Claim C1 -/

/-- Failing input for the media-routing claim: a GET for
`/api/media/photo1.jpg`. -/
def mediaReqC1 : Request :=
  ⟨"GET", "https://vault.example/api/media/photo1.jpg",
   "/api/media/photo1.jpg", "no-cors", "image"⟩

def cachedMediaC1 : Response :=
  ⟨200, "cached-bytes", [("Content-Type", "image/jpeg")], none⟩

def networkMediaC1 : Response :=
  ⟨200, "network-bytes", [("Content-Type", "image/jpeg")], none⟩

def netC1 : Network := fun _ => some networkMediaC1

/-- A cache whose media partition holds the entry for the request key. -/
def mediaHitCacheC1 : CacheStore :=
  [(MEDIA_CACHE, [("https://vault.example/api/media/photo1.jpg", cachedMediaC1)])]

/-- C1: the claim fails on the code. Because the fetch listener tests the
`/api/` prefix before the `/api/media/` prefix, a GET whose path starts with
`/api/media/` is dispatched to the network-only API handler, never to the
media strategy: at the failing input, even though the media partition holds
an entry for the request key, the dispatched handler performs a network
fetch and returns the network response instead of the cached one. -/
theorem media_route_shadowed_by_api_prefix :
    routeRequest mediaReqC1 = Strategy.api ∧
    routeRequest mediaReqC1 ≠ Strategy.media ∧
    cachesMatch mediaHitCacheC1 mediaReqC1.url = some cachedMediaC1 ∧
    handleFetch netC1 "2026-10-11T00:00:00.000Z" mediaReqC1 mediaHitCacheC1 =
      some ⟨some networkMediaC1, mediaHitCacheC1, true, true⟩ ∧
    networkMediaC1 ≠ cachedMediaC1 := by
  refine ⟨by decide, by decide, by decide, by decide, by decide⟩

/-! ### Claim C2 -/

/-- A network on which every install-asset fetch fails. -/
def netFailC2 : Network := fun _ => none

/-- C2 counterexample: when asset fetches fail during install, the error is
caught and logged, so the promise handed to `event.waitUntil` resolves —
the install step does not fail (only `skipWaiting` is skipped). -/
theorem install_failure_swallowed_counterexample :
    (installStaticAssets netFailC2 []).logged = true ∧
    (installStaticAssets netFailC2 []).skipWaitingCalled = false ∧
    (installStaticAssets netFailC2 []).waitUntilRejected = false :=
  ⟨rfl, rfl, rfl⟩

/-- C2 (amended): if fetching any manifest asset fails, then no asset is
cached for that attempt, the failure is logged, and `skipWaiting` is not
called — but the catch swallows the error, so the promise given to
`event.waitUntil` resolves and the install step itself completes. -/
theorem install_failure_logged_not_fatal :
    ∀ (net : Network) (c : CacheStore),
      STATIC_ASSETS.any (fun a => (net a).isNone) = true →
      installStaticAssets net c =
        ⟨cacheOpen c STATIC_CACHE, true, false, false⟩ := by
  intro net c h
  have hall : (STATIC_ASSETS.all fun k => (net k).isSome) = false := by
    rcases List.any_eq_true.mp h with ⟨a, ha, hna⟩
    cases hb : STATIC_ASSETS.all fun k => (net k).isSome with
    | false => rfl
    | true =>
      have h2 := List.all_eq_true.mp hb a ha
      cases hne : net a with
      | none => rw [hne] at h2; simp at h2
      | some v => rw [hne] at hna; simp at hna
  simp [installStaticAssets, cacheAddAll, hall]

/-- C2 witness: the amended theorem applied at the all-failing network. -/
theorem install_failure_logged_not_fatal_witness :
    STATIC_ASSETS.any (fun a => (netFailC2 a).isNone) = true ∧
    installStaticAssets netFailC2 [] =
      ⟨cacheOpen [] STATIC_CACHE, true, false, false⟩ :=
  ⟨rfl, install_failure_logged_not_fatal netFailC2 [] rfl⟩

/-! ### Claim C3 -/

def navReqC3 : Request :=
  ⟨"GET", "https://vault.example/albums", "/albums", "navigate", "document"⟩

def notFoundC3 : Response := ⟨404, "Not Found", [], none⟩

def netC3 : Network := fun _ => some notFoundC3

/-- C3 counterexample: the page handler has no status test — a navigation
whose fetch resolves with a 404 is persisted into the dynamic partition. -/
theorem page_handler_caches_404 :
    notFoundC3.status ≠ 200 ∧
    (handlePageRequest netC3 navReqC3 []).cache =
      [(DYNAMIC_CACHE, [("https://vault.example/albums", notFoundC3)])] :=
  ⟨by decide, rfl⟩

/-- C3 (amended): the media strategy and `fetchAndCache` (the static path)
persist only status-200 responses and never persist failed fetches, and no
handler writes on network failure; but the network-first page handler
persists every response its fetch resolves with, regardless of status. -/
theorem cache_write_status_discipline :
    ∀ (net : Network) (req : Request) (c : CacheStore) (r : Response),
      (net req.url = some r → r.status ≠ 200 →
        (handleMediaRequest net req c).cache = c) ∧
      (net req.url = some r → r.status ≠ 200 →
        (fetchAndCache net req.url c).2 = c) ∧
      (net req.url = none →
        (handleMediaRequest net req c).cache = c ∧
        (fetchAndCache net req.url c).2 = c ∧
        (handlePageRequest net req c).cache = c) ∧
      ((handleStaticRequest net req c).cache = (fetchAndCache net req.url c).2) ∧
      (net req.url = some r →
        (handlePageRequest net req c).cache =
          cachePut c DYNAMIC_CACHE req.url r) := by
  intro net req c r
  refine ⟨?_, ?_, ?_, ?_, ?_⟩
  · intro h hs
    cases hc : cachesMatch c req.url with
    | some v => simp [handleMediaRequest, hc]
    | none =>
      have hb : (r.status == 200) = false := by simp [hs]
      simp [handleMediaRequest, hc, h, hb]
  · intro h hs
    have hb : (r.status != 200) = true := by simp [hs]
    simp [fetchAndCache, h, hb]
  · intro h
    refine ⟨?_, ?_, ?_⟩
    · cases hc : cachesMatch c req.url with
      | some v => simp [handleMediaRequest, hc]
      | none =>
        cases hd : req.destination == "image" <;>
          simp [handleMediaRequest, hc, h, hd]
    · simp [fetchAndCache, h]
    · cases hc : cachesMatch c req.url with
      | some v => simp [handlePageRequest, h, hc]
      | none => simp [handlePageRequest, h, hc]
  · cases hc : cachesMatch c req.url with
    | some v => simp [handleStaticRequest, hc]
    | none =>
      simp only [handleStaticRequest, hc]
      rcases h2 : fetchAndCache net req.url c with ⟨o, c2⟩
      cases o <;> rfl
  · intro h
    simp [handlePageRequest, h]

/-- C3 witness: the amended theorem applied at a 404 navigation response. -/
theorem cache_write_status_discipline_witness :
    (handleMediaRequest netC3 navReqC3 []).cache = [] ∧
    (fetchAndCache netC3 navReqC3.url []).2 = [] ∧
    (handlePageRequest netC3 navReqC3 []).cache =
      cachePut [] DYNAMIC_CACHE navReqC3.url notFoundC3 := by
  obtain ⟨h1, h2, _, _, h5⟩ :=
    cache_write_status_discipline netC3 navReqC3 [] notFoundC3
  exact ⟨h1 rfl (by decide), h2 rfl (by decide), h5 rfl⟩

/-! ### Claim C4 -/

def staticReqC4 : Request :=
  ⟨"GET", "https://vault.example/static/js/app.js", "/static/js/app.js",
   "no-cors", "script"⟩

def assetRespC4 : Response :=
  ⟨200, "console.log(1);", [("Content-Type", "text/javascript")], none⟩

def netC4 : Network := fun _ => some assetRespC4

def netFailC4 : Network := fun _ => none

/-- C4: for a static-asset GET (one the router classifies as static) whose
fetch succeeds with status 200 on a cache miss, the response is returned and
is present in the dynamic partition (the partition the cache-first strategy
writes through `fetchAndCache`) once the invocation's writes have landed;
re-requesting the same key is then served from cache with
`blockedOnNetwork = false`, whatever the second network does — the
background refresh's outcome is not awaited by the caller. -/
theorem static_cache_first_background_refresh :
    ∀ (net net2 : Network) (ts : String) (req : Request) (c : CacheStore)
      (r : Response),
      routeRequest req = Strategy.staticAsset →
      cachesMatch c req.url = none →
      net req.url = some r →
      r.status = 200 →
      handleFetch net ts req c = some (handleStaticRequest net req c) ∧
      (handleStaticRequest net req c).response = some r ∧
      cacheMatchIn (handleStaticRequest net req c).cache DYNAMIC_CACHE
        req.url = some r ∧
      cachesMatch (handleStaticRequest net req c).cache req.url = some r ∧
      (handleStaticRequest net2 req
        (handleStaticRequest net req c).cache).response = some r ∧
      (handleStaticRequest net2 req
        (handleStaticRequest net req c).cache).blockedOnNetwork = false ∧
      handleFetch net2 ts req (handleStaticRequest net req c).cache =
        some (handleStaticRequest net2 req
          (handleStaticRequest net req c).cache) := by
  intro net net2 ts req c r hroute hmiss hnet hstat
  have hfc : fetchAndCache net req.url c =
      (some r, cachePut c DYNAMIC_CACHE req.url r) := by
    simp [fetchAndCache, hnet, hstat]
  have h1 : handleStaticRequest net req c =
      ⟨some r, cachePut c DYNAMIC_CACHE req.url r, true, true⟩ := by
    simp [handleStaticRequest, hmiss, hfc]
  have hcm := cachesMatch_cachePut_self c DYNAMIC_CACHE req.url r hmiss
  have h2 : handleStaticRequest net2 req (cachePut c DYNAMIC_CACHE req.url r) =
      ⟨some r,
       (fetchAndCache net2 req.url (cachePut c DYNAMIC_CACHE req.url r)).2,
       true, false⟩ := by
    simp [handleStaticRequest, hcm]
  refine ⟨by simp [handleFetch, hroute], by simp [h1], ?_,
    by simp [h1, hcm], by simp [h1, h2], by simp [h1, h2],
    by simp [handleFetch, hroute]⟩
  simp [h1, cacheMatchIn_cachePut_self]

/-- C4 witness: the theorem applied at a concrete asset request, with a
failing network for the second (background-refresh) invocation. -/
theorem static_cache_first_background_refresh_witness :
    handleFetch netC4 "ts" staticReqC4 [] =
      some (handleStaticRequest netC4 staticReqC4 []) ∧
    (handleStaticRequest netC4 staticReqC4 []).response = some assetRespC4 ∧
    cacheMatchIn (handleStaticRequest netC4 staticReqC4 []).cache
      DYNAMIC_CACHE staticReqC4.url = some assetRespC4 ∧
    cachesMatch (handleStaticRequest netC4 staticReqC4 []).cache
      staticReqC4.url = some assetRespC4 ∧
    (handleStaticRequest netFailC4 staticReqC4
      (handleStaticRequest netC4 staticReqC4 []).cache).response =
        some assetRespC4 ∧
    (handleStaticRequest netFailC4 staticReqC4
      (handleStaticRequest netC4 staticReqC4 []).cache).blockedOnNetwork =
        false ∧
    handleFetch netFailC4 "ts" staticReqC4
      (handleStaticRequest netC4 staticReqC4 []).cache =
        some (handleStaticRequest netFailC4 staticReqC4
          (handleStaticRequest netC4 staticReqC4 []).cache) :=
  static_cache_first_background_refresh netC4 netFailC4 "ts" staticReqC4 []
    assetRespC4 (by decide) rfl rfl rfl

/-! ### Claim C6 -/

def apiReqC6 : Request :=
  ⟨"GET", "https://vault.example/api/settings", "/api/settings", "cors", ""⟩

def netNoneC6 : Network := fun _ => none

def cacheAC6 : CacheStore := []

def cacheBC6 : CacheStore :=
  [(DYNAMIC_CACHE,
    [("https://vault.example/api/settings", ⟨200, "stale", [], none⟩)])]

/-- C6: a GET under `/api/` is routed to the network-only handler; that
handler leaves the cache untouched and its response does not depend on the
cache contents (no partition is read or written, whatever the status), and
on network failure it synthesizes the 503 JSON
`\x7b error, offline: true, timestamp \x7d` response with
`Cache-Control: no-store`. -/
theorem api_network_only :
    ∀ (net : Network) (ts : String) (req : Request) (c c2 : CacheStore),
      (req.method = "GET" →
        strStartsWith req.url "chrome-extension://" = false →
        strStartsWith req.path "/api/" = true →
        routeRequest req = Strategy.api) ∧
      (handleApiRequest net ts req c).cache = c ∧
      (handleApiRequest net ts req c).response =
        (handleApiRequest net ts req c2).response ∧
      (net req.url = none →
        (handleApiRequest net ts req c).response =
          some (apiOfflineResponse ts) ∧
        (apiOfflineResponse ts).status = 503 ∧
        (apiOfflineResponse ts).getHeader "Cache-Control" =
          some "no-store" ∧
        (apiOfflineResponse ts).body =
          "\x7b\"error\":\"You are offline\",\"offline\":true,\"timestamp\":\""
            ++ ts ++ "\"\x7d") := by
  intro net ts req c c2
  refine ⟨?_, ?_, ?_, ?_⟩
  · intro hm hc hp
    simp [routeRequest, hm, hc, hp]
  · cases hn : net req.url <;> simp [handleApiRequest, hn]
  · cases hn : net req.url <;> simp [handleApiRequest, hn]
  · intro hn
    exact ⟨by simp [handleApiRequest, hn], rfl, rfl, rfl⟩

/-- C6 witness: the theorem applied at a concrete `/api/settings` GET with
a failing network and two different cache states. -/
theorem api_network_only_witness :
    routeRequest apiReqC6 = Strategy.api ∧
    (handleApiRequest netNoneC6 "2026-10-11T00:00:00.000Z" apiReqC6
      cacheBC6).cache = cacheBC6 ∧
    (handleApiRequest netNoneC6 "2026-10-11T00:00:00.000Z" apiReqC6
      cacheBC6).response =
      (handleApiRequest netNoneC6 "2026-10-11T00:00:00.000Z" apiReqC6
        cacheAC6).response ∧
    ((handleApiRequest netNoneC6 "2026-10-11T00:00:00.000Z" apiReqC6
        cacheBC6).response =
      some (apiOfflineResponse "2026-10-11T00:00:00.000Z") ∧
     (apiOfflineResponse "2026-10-11T00:00:00.000Z").status = 503 ∧
     (apiOfflineResponse "2026-10-11T00:00:00.000Z").getHeader
       "Cache-Control" = some "no-store" ∧
     (apiOfflineResponse "2026-10-11T00:00:00.000Z").body =
       "\x7b\"error\":\"You are offline\",\"offline\":true,\"timestamp\":\""
         ++ "2026-10-11T00:00:00.000Z" ++ "\"\x7d") := by
  obtain ⟨h1, h2, h3, h4⟩ := api_network_only netNoneC6
    "2026-10-11T00:00:00.000Z" apiReqC6 cacheBC6 cacheAC6
  exact ⟨h1 rfl (by decide) (by decide), h2, h3, h4 rfl⟩

/-! ### Claim C7 -/

def navReqC7 : Request :=
  ⟨"GET", "https://vault.example/vault", "/vault", "navigate", "document"⟩

def netNoneC7 : Network := fun _ => none

def cachedPageC7 : Response :=
  ⟨200, "<html>vault</html>", [("Content-Type", "text/html")], none⟩

def cMissC7 : CacheStore := installOfflinePage []

def cHitC7 : CacheStore :=
  cachePut (installOfflinePage []) DYNAMIC_CACHE
    "https://vault.example/vault" cachedPageC7

/-- C7: the offline-page install listener stores `offlinePageResponse`
(whose body is the fixed `OFFLINE_HTML`) under `/offline`; when a
navigation's fetch fails, the handler returns the cached response for that
exact URL when one exists, and otherwise returns the cached `/offline`
entry — so when that entry is the installed offline page, the returned
body equals the fixed offline page content. -/
theorem page_offline_fallback :
    ∀ (net : Network) (req : Request) (c c0 : CacheStore)
      (cached : Response),
      cacheMatchIn (installOfflinePage c0) STATIC_CACHE "/offline" =
        some offlinePageResponse ∧
      offlinePageResponse.body = OFFLINE_HTML ∧
      (net req.url = none → cachesMatch c req.url = some cached →
        (handlePageRequest net req c).response = some cached) ∧
      (net req.url = none → cachesMatch c req.url = none →
        (handlePageRequest net req c).response = cachesMatch c "/offline") ∧
      (net req.url = none → cachesMatch c req.url = none →
        cachesMatch c "/offline" = some offlinePageResponse →
        Option.map Response.body (handlePageRequest net req c).response =
          some OFFLINE_HTML) := by
  intro net req c c0 cached
  refine ⟨by simp [installOfflinePage, cacheMatchIn_cachePut_self], rfl,
    ?_, ?_, ?_⟩
  · intro hn hc
    simp [handlePageRequest, hn, hc]
  · intro hn hc
    simp [handlePageRequest, hn, hc]
  · intro hn hc ho
    simp [handlePageRequest, hn, hc, ho, offlinePageResponse]

/-- C7 witness: a failed navigation with a prior cached copy returns that
copy; without one, the returned body is the fixed offline page content. -/
theorem page_offline_fallback_witness :
    (handlePageRequest netNoneC7 navReqC7 cHitC7).response =
      some cachedPageC7 ∧
    Option.map Response.body
      (handlePageRequest netNoneC7 navReqC7 cMissC7).response =
        some OFFLINE_HTML := by
  obtain ⟨_, _, h3, _, _⟩ :=
    page_offline_fallback netNoneC7 navReqC7 cHitC7 [] cachedPageC7
  obtain ⟨_, _, _, _, h5⟩ :=
    page_offline_fallback netNoneC7 navReqC7 cMissC7 [] cachedPageC7
  exact ⟨h3 rfl rfl, h5 rfl rfl rfl⟩

/-! ### Claim C5 -/

/-- C5 counterexample: a failing settings-queue item stays queued, but no
client message at all is posted by the settings sync loop — there is no
failure notification carrying the item id. -/
theorem settings_sync_not_notified :
    (syncSettings (fun _ => Except.error "Network error")
      [⟨"s1", "theme"⟩]).1 = [⟨"s1", "theme"⟩] ∧
    (syncSettings (fun _ => Except.error "Network error")
      [⟨"s1", "theme"⟩]).2 = [] :=
  ⟨rfl, rfl⟩

/-- C5 (amended): for the sync-uploads queue the per-item protocol is as
claimed — a succeeding item is removed and produces an
`UPLOAD_SYNC_SUCCESS` message with its id, a failing item stays queued and
produces an `UPLOAD_SYNC_FAILED` message with its id and error text, and
every item is processed (one message per item, failures do not block the
rest). For the sync-settings queue, items are likewise removed on success,
kept on failure and processing continues, but no client message is posted
for either outcome. -/
theorem sync_per_item_protocol :
    ∀ (attemptU : Upload → Except String Unit) (uploads : List Upload)
      (attemptS : SettingChange → Except String Unit)
      (settings : List SettingChange),
      (syncPendingUploads attemptU uploads).1 =
        uploads.filter (fun u => match attemptU u with
          | Except.ok _ => false
          | Except.error _ => true) ∧
      (syncPendingUploads attemptU uploads).2 =
        uploads.map (fun u => match attemptU u with
          | Except.ok _ => ⟨"UPLOAD_SYNC_SUCCESS", u.id, none⟩
          | Except.error e => ⟨"UPLOAD_SYNC_FAILED", u.id, some e⟩) ∧
      (syncSettings attemptS settings).1 =
        settings.filter (fun ch => match attemptS ch with
          | Except.ok _ => false
          | Except.error _ => true) ∧
      (syncSettings attemptS settings).2 = [] := by
  intro attemptU uploads attemptS settings
  exact ⟨syncPendingUploads_queue attemptU uploads,
    syncPendingUploads_messages attemptU uploads,
    syncSettings_queue attemptS settings,
    syncSettings_messages attemptS settings⟩

/-! ### Claim C8 -/

/-- C8: activation deletes exactly the partitions whose names are outside
the current allow-list: an allow-listed partition keeps its lookup (all its
entries unchanged), every other name looks up to nothing afterwards. -/
theorem activate_allowlist :
    ∀ (c : CacheStore) (nm : String),
      cacheLookup (activateListener c) nm =
        if nm ∈ currentCaches then cacheLookup c nm else none := by
  intro c nm
  unfold activateListener
  rw [cacheLookup_foldl_delete]
  by_cases h : nm ∈ currentCaches
  · have hnot : nm ∉ (cachesKeys c).filter
        (fun x => !currentCaches.contains x) := by
      intro hmem
      have h2 := (List.mem_filter.mp hmem).2
      simp at h2
      exact h2 h
    rw [if_neg hnot, if_pos h]
  · by_cases h2 : nm ∈ cachesKeys c
    · have hin : nm ∈ (cachesKeys c).filter
          (fun x => !currentCaches.contains x) := by
        refine List.mem_filter.mpr ⟨h2, ?_⟩
        simp [h]
      rw [if_pos hin, if_neg h]
    · have hn := cacheLookup_eq_none_of_not_mem c nm h2
      rw [hn, if_neg h, ite_self]

/-! ### Claim C9 -/

/-- C9: one janitor pass keeps a dynamic-partition entry exactly when its
`date` header is absent or not older than 7 days before `now`, and a
media-partition entry exactly when its `date` header is absent or not older
than 30 days before `now`; every entry strictly older than its partition's
cutoff is deleted, and entries without a `date` header are never deleted. -/
theorem janitor_retention :
    ∀ (now : Int) (c : CacheStore) (k : String) (r : Response),
      ((k, r) ∈ partitionEntries (cleanupCache now c) DYNAMIC_CACHE ↔
        (k, r) ∈ partitionEntries c DYNAMIC_CACHE ∧
          keepEntry (now - 7 * 24 * 60 * 60 * 1000) (k, r) = true) ∧
      ((k, r) ∈ partitionEntries (cleanupCache now c) MEDIA_CACHE ↔
        (k, r) ∈ partitionEntries c MEDIA_CACHE ∧
          keepEntry (now - 30 * 24 * 60 * 60 * 1000) (k, r) = true) := by
  intro now c k r
  have hne : MEDIA_CACHE ≠ DYNAMIC_CACHE := by decide
  have hne2 : DYNAMIC_CACHE ≠ MEDIA_CACHE := by decide
  constructor
  · simp only [cleanupCache, partitionEntries]
    rw [cacheLookup_filterPartitionEntries_other _ _ _ _ hne2,
      cacheLookup_filterPartitionEntries_self]
    simp [partitionEntries, List.mem_filter]
  · simp only [cleanupCache, partitionEntries]
    rw [cacheLookup_filterPartitionEntries_self]
    simp only [partitionEntries, Option.getD_some]
    rw [cacheLookup_filterPartitionEntries_other _ _ _ _ hne]
    simp [List.mem_filter]

/-! ### Claim C10 -/

/-- C10: the gallery's file-selection handler appends to the upload queue
exactly the files whose MIME type starts with `image/` or `video/` and
whose size is at most `500 * 1024 * 1024` bytes, each as a queue item with
progress 0 and status `pending`, in order; every invalid file is not
enqueued and produces an error notification naming it. -/
theorem gallery_file_selection :
    ∀ (queue : List QueueItem) (files : List VFile),
      (handleFileSelection queue files).1 =
        queue ++ (files.filter isValidFile).map
          (fun f => ⟨f, 0, "pending"⟩) ∧
      ∀ f, f ∈ files → isValidFile f = false →
        ((f.name ++ ": Invalid file type") ∈
            (handleFileSelection queue files).2 ∨
         (f.name ++ ": File too large (max 500MB)") ∈
            (handleFileSelection queue files).2) := by
  intro queue files
  constructor
  · simp [handleFileSelection, selectValid_fst]
  · intro f hm hinv
    have h := selectValid_errors files f hm hinv
    simpa [handleFileSelection] using h

def fImgC10 : VFile := ⟨"a.jpg", "image/jpeg", 1024⟩

def fTxtC10 : VFile := ⟨"b.txt", "text/plain", 1024⟩

def fBigC10 : VFile := ⟨"c.mp4", "video/mp4", 600 * 1024 * 1024⟩

/-- C10 witness: the theorem applied at a selection containing one valid
image, one invalid type and one oversized video. -/
theorem gallery_file_selection_witness :
    fTxtC10 ∈ [fImgC10, fTxtC10, fBigC10] ∧
    isValidFile fTxtC10 = false ∧
    (handleFileSelection [] [fImgC10, fTxtC10, fBigC10]).1 =
      [] ++ ([fImgC10, fTxtC10, fBigC10].filter isValidFile).map
        (fun f => ⟨f, 0, "pending"⟩) ∧
    ((fTxtC10.name ++ ": Invalid file type") ∈
        (handleFileSelection [] [fImgC10, fTxtC10, fBigC10]).2 ∨
     (fTxtC10.name ++ ": File too large (max 500MB)") ∈
        (handleFileSelection [] [fImgC10, fTxtC10, fBigC10]).2) := by
  obtain ⟨h1, h2⟩ := gallery_file_selection [] [fImgC10, fTxtC10, fBigC10]
  exact ⟨by decide, by decide, h1, h2 fTxtC10 (by decide) (by decide)⟩
